import Mathlib

set_option autoImplicit false

/-!
Shallow embedding of the `dynbox!`-generated container from `src/lib.rs`.

The generated structure `$name<const SIZE: usize>` holds a byte buffer
`store: [u8; SIZE]` and a `vtable: usize` field; `vtable == 0` is the
sentinel meaning "empty".  We model bytes as natural numbers, the buffer as
a `List Nat` of length `SIZE`, and a concrete Rust type `T` implementing the
trait as a `TraitImpl`: its `size_of`, the address of its vtable (nonzero
for every real Rust vtable), and its trait-method implementation `foo`,
read off the value's byte representation.  A trait object reference
`&dyn Trait` is a fat pointer: the pointed-to bytes paired with the vtable
address; method dispatch looks the vtable address up in a program-wide
vtable environment `env : Nat → TraitImpl`.

Effects are made explicit: operations that may run destructors return,
besides the new container state, the list of drop events performed, each
event recording the vtable of the occupant whose destructor (`drop_in_place`)
ran.  `core::mem::forget(content)` in `set` is modelled by `set` emitting no
drop event for its argument.  A panic (the `assert!` in `set`) is modelled
by the `SetResult.panicked` constructor carrying the container state at the
moment of the panic and the drop events performed before it.
-/

namespace DynboxModel

/-- A concrete Rust type implementing the trait: its `size_of`, the address
of its vtable for the trait, and its implementation of the trait method,
acting on the value's byte representation. -/
structure TraitImpl where
  size : Nat
  vtable : Nat
  foo : List Nat → Nat

/-- The state of a generated DynBox with capacity `SIZE`:
`store: [u8; SIZE]` and `vtable: usize` (0 = empty sentinel). -/
structure DynBox (SIZE : Nat) where
  store : List Nat
  vtable : Nat
deriving DecidableEq, Repr

/-- Result of `set`: either normal return or a panic from the
`assert!(size <= SIZE)`; both carry the container state afterwards (for the
panic: at the point of the panic) and the drop events performed. -/
inductive SetResult (SIZE : Nat) where
  | ok : DynBox SIZE → List Nat → SetResult SIZE
  | panicked : DynBox SIZE → List Nat → SetResult SIZE
deriving DecidableEq, Repr

/-- Rust `fn new() -> $name<SIZE>`: zeroed buffer, vtable 0. -/
def DynBox.new (SIZE : Nat) : DynBox SIZE :=
  { store := List.replicate SIZE 0, vtable := 0 }

/-- Rust `fn empty(&self) -> bool`: `self.vtable == 0`. -/
def DynBox.empty {SIZE : Nat} (b : DynBox SIZE) : Bool :=
  b.vtable == 0

/-- Rust `fn clear(&mut self)`: if `vtable != 0`, run `drop_in_place` on the
occupant (one drop event, recorded by the occupant's vtable) and reset
`vtable` to 0; otherwise do nothing.  Returns the new state and the drop
events. -/
def DynBox.clear {SIZE : Nat} (b : DynBox SIZE) : DynBox SIZE × List Nat :=
  if b.vtable ≠ 0 then ({ b with vtable := 0 }, [b.vtable]) else (b, [])

/-- The effect of `copy_from` in `set`: overwrite the first `sz` bytes of
the buffer with the value's bytes (`sz = size_of::<T>()`), leaving the rest
of the buffer unchanged. -/
def writeStore (sz : Nat) (buf bytes : List Nat) : List Nat :=
  bytes.take sz ++ buf.drop sz

/-- The first statement of `set`: `if !self.empty() { self.clear(); }`. -/
def DynBox.clearIfOccupied {SIZE : Nat} (b : DynBox SIZE) : DynBox SIZE × List Nat :=
  if b.empty then (b, []) else b.clear

/-- Rust `fn set<T: $trait>(&mut self, content: T)`.  Steps, in source
order: (1) `if !self.empty() { self.clear(); }` — drops any previous
occupant; (2) `assert!(size_of::<T>() <= SIZE)` — panics if violated, at
which point only step (1) has run; (3) store `T`'s vtable into `self.vtable`
and copy the `size_of::<T>()` bytes of `content` into `self.store`;
(4) `core::mem::forget(content)` — no drop event for the argument. -/
def DynBox.set {SIZE : Nat} (T : TraitImpl) (bytes : List Nat) (b : DynBox SIZE) :
    SetResult SIZE :=
  if T.size ≤ SIZE then
    SetResult.ok
      { store := writeStore T.size (b.clearIfOccupied).1.store bytes, vtable := T.vtable }
      (b.clearIfOccupied).2
  else
    SetResult.panicked (b.clearIfOccupied).1 (b.clearIfOccupied).2

/-- Rust `fn get(&self) -> Option<&dyn $trait>`: `None` if `vtable == 0`,
otherwise the fat pointer synthesized from the storage bytes and the vtable
field. -/
def DynBox.get {SIZE : Nat} (b : DynBox SIZE) : Option (List Nat × Nat) :=
  if b.vtable = 0 then none else some (b.store, b.vtable)

/-- Rust `fn get_mut(&mut self) -> Option<&mut dyn $trait>`: same
discriminating test and same fat pointer as `get`. -/
def DynBox.get_mut {SIZE : Nat} (b : DynBox SIZE) : Option (List Nat × Nat) :=
  if b.vtable = 0 then none else some (b.store, b.vtable)

/-- Rust `impl Drop for $name`: `fn drop(&mut self) { self.clear(); }`.
Returns the final state and the drop events of the destruction. -/
def DynBox.dropContainer {SIZE : Nat} (b : DynBox SIZE) : DynBox SIZE × List Nat :=
  b.clear

/-- Calling the trait method through a fat pointer `(data bytes, vtable)`:
the vtable address is resolved in the program's vtable environment to the
concrete type's implementation, which reads that type's `size` many bytes at
the data pointer. -/
def callFoo (env : Nat → TraitImpl) (r : List Nat × Nat) : Nat :=
  (env r.2).foo (r.1.take (env r.2).size)

/-- States reachable through the public constructor and mutators `new`,
`set` (whether it returns or panics) and `clear`. -/
inductive Reachable (SIZE : Nat) : DynBox SIZE → Prop where
  | new : Reachable SIZE (DynBox.new SIZE)
  | set_ok {b b2 : DynBox SIZE} {T : TraitImpl} {bytes ds : List Nat} :
      Reachable SIZE b → DynBox.set T bytes b = SetResult.ok b2 ds → Reachable SIZE b2
  | set_panic {b b2 : DynBox SIZE} {T : TraitImpl} {bytes ds : List Nat} :
      Reachable SIZE b → DynBox.set T bytes b = SetResult.panicked b2 ds → Reachable SIZE b2
  | clear {b : DynBox SIZE} : Reachable SIZE b → Reachable SIZE (b.clear).1

/-! Concrete fixtures mirroring the inline unit tests of `src/lib.rs`. -/

/-- Model of the test type `B(u128)`: 16 bytes, trait method returning the
first byte of the representation (the test stores `B(42)` and expects
`foo() == 42`).  Its vtable lives at the (arbitrary nonzero) address 5. -/
def typeB : TraitImpl :=
  { size := 16, vtable := 5, foo := fun bs => bs.headD 0 }

/-- Model of the zero-sized test type `A`, whose trait method returns 1.
Its vtable lives at the (arbitrary nonzero) address 3. -/
def typeA : TraitImpl :=
  { size := 0, vtable := 3, foo := fun _ => 1 }

/-- A vtable environment resolving the two fixture vtable addresses. -/
def testEnv : Nat → TraitImpl :=
  fun v => if v = 3 then typeA else typeB

/-- The byte representation of the test value `B(42)` (little-endian u128). -/
def bytesB42 : List Nat :=
  42 :: List.replicate 15 0

/-- An occupied capacity-4 container: some 4-byte occupant whose vtable is at
address 7. -/
def bOcc : DynBox 4 :=
  { store := [1, 2, 3, 4], vtable := 7 }

/-! Helper lemmas shared by the claim theorems. -/

theorem clearIfOccupied_eq {SIZE : Nat} (b : DynBox SIZE) :
    b.clearIfOccupied =
      ({ store := b.store, vtable := 0 }, if b.vtable = 0 then [] else [b.vtable]) := by
  obtain ⟨s, v⟩ := b
  by_cases hv : v = 0 <;>
    simp [DynBox.clearIfOccupied, DynBox.empty, DynBox.clear, hv]

theorem set_eq {SIZE : Nat} (T : TraitImpl) (bytes : List Nat) (b : DynBox SIZE) :
    DynBox.set T bytes b =
      if T.size ≤ SIZE then
        SetResult.ok { store := writeStore T.size b.store bytes, vtable := T.vtable }
          (if b.vtable = 0 then [] else [b.vtable])
      else
        SetResult.panicked { store := b.store, vtable := 0 }
          (if b.vtable = 0 then [] else [b.vtable]) := by
  unfold DynBox.set
  rw [clearIfOccupied_eq]

theorem writeStore_take {sz : Nat} {buf bytes : List Nat} (hlen : bytes.length = sz) :
    (writeStore sz buf bytes).take sz = bytes := by
  unfold writeStore
  rw [← hlen, List.take_length, List.take_left]

theorem set_ok_dispatch {SIZE : Nat} (env : Nat → TraitImpl) (T : TraitImpl)
    (bytes : List Nat) (b : DynBox SIZE) (henv : env T.vtable = T)
    (hlen : bytes.length = T.size) (hsz : T.size ≤ SIZE) (hvt : T.vtable ≠ 0) :
    ∃ b2 ds, DynBox.set T bytes b = SetResult.ok b2 ds ∧ b2.empty = false ∧
      (∃ r, b2.get = some r ∧ callFoo env r = T.foo bytes) ∧
      (∃ r, b2.get_mut = some r ∧ callFoo env r = T.foo bytes) := by
  refine ⟨{ store := writeStore T.size b.store bytes, vtable := T.vtable },
    if b.vtable = 0 then [] else [b.vtable], ?_, ?_, ?_, ?_⟩
  · rw [set_eq, if_pos hsz]
  · simp [DynBox.empty, hvt]
  · refine ⟨(writeStore T.size b.store bytes, T.vtable), ?_, ?_⟩
    · simp [DynBox.get, hvt]
    · simp [callFoo, henv, writeStore_take hlen]
  · refine ⟨(writeStore T.size b.store bytes, T.vtable), ?_, ?_⟩
    · simp [DynBox.get_mut, hvt]
    · simp [callFoo, henv, writeStore_take hlen]

/-! Claim theorems. -/

/-- Claim C1, counterexample: on the occupied capacity-4 container `bOcc`
(dispatch tag 7), storing the oversized 16-byte `typeB` panics, but at the
panic point the dispatch tag has been reset from 7 to 0 and the prior
occupant has been dropped (one drop event `[7]`), so the container state at
the failure is not "exactly as it was before the call with no occupant
destroyed". -/
theorem set_oversized_mutates_state :
    DynBox.set typeB (List.replicate 16 0) bOcc =
        SetResult.panicked { store := [1, 2, 3, 4], vtable := 0 } [7] ∧
      bOcc.vtable = 7 ∧
      DynBox.set typeB (List.replicate 16 0) bOcc ≠
        SetResult.panicked bOcc [] :=
  ⟨by decide, rfl, by decide⟩

/-- Claim C1, amended: storing an oversized value panics before any byte of
the new value is written — the storage bytes at the panic point are exactly
the pre-call bytes — but only after any prior occupant has been dropped
(exactly once) and the dispatch tag reset to the empty sentinel 0. -/
theorem set_oversized_panics_after_clear {SIZE : Nat} (T : TraitImpl)
    (bytes : List Nat) (b : DynBox SIZE) (hsz : SIZE < T.size) :
    DynBox.set T bytes b =
      SetResult.panicked { store := b.store, vtable := 0 }
        (if b.vtable = 0 then [] else [b.vtable]) := by
  rw [set_eq, if_neg (by omega)]

/-- Witness for the amended C1 at `bOcc` and the 16-byte `typeB`. -/
theorem set_oversized_panics_after_clear_witness :
    4 < typeB.size ∧
      DynBox.set typeB (List.replicate 16 0) bOcc =
        SetResult.panicked { store := bOcc.store, vtable := 0 }
          (if bOcc.vtable = 0 then [] else [bOcc.vtable]) :=
  ⟨by decide,
    set_oversized_panics_after_clear typeB (List.replicate 16 0) bOcc (by decide)⟩

/-- Claim C2: after a successful `set` of a value of a concrete type `T` with
`size_of(T) <= SIZE`, the container reports non-empty, and calling the trait
method through the references returned by `get` and `get_mut` gives the same
result as calling it directly on the original value's representation. -/
theorem set_then_get_dispatches {SIZE : Nat} (env : Nat → TraitImpl) (T : TraitImpl)
    (bytes : List Nat) (b : DynBox SIZE) (henv : env T.vtable = T)
    (hlen : bytes.length = T.size) (hsz : T.size ≤ SIZE) (hvt : T.vtable ≠ 0) :
    ∃ b2 ds, DynBox.set T bytes b = SetResult.ok b2 ds ∧ b2.empty = false ∧
      (∃ r, b2.get = some r ∧ callFoo env r = T.foo bytes) ∧
      (∃ r, b2.get_mut = some r ∧ callFoo env r = T.foo bytes) :=
  set_ok_dispatch env T bytes b henv hlen hsz hvt

/-- Witness for C2: the test scenario `DynBox::<64>` storing `B(42)`. -/
theorem set_then_get_dispatches_witness :
    testEnv typeB.vtable = typeB ∧ bytesB42.length = typeB.size ∧
      typeB.size ≤ 64 ∧ typeB.vtable ≠ 0 ∧
      (∃ b2 ds, DynBox.set typeB bytesB42 (DynBox.new 64) = SetResult.ok b2 ds ∧
        b2.empty = false ∧
        (∃ r, b2.get = some r ∧ callFoo testEnv r = typeB.foo bytesB42) ∧
        (∃ r, b2.get_mut = some r ∧ callFoo testEnv r = typeB.foo bytesB42)) :=
  ⟨rfl, by decide, by decide, by decide,
    set_then_get_dispatches testEnv typeB bytesB42 (DynBox.new 64) rfl (by decide)
      (by decide) (by decide)⟩

/-- Claim C3: a freshly constructed container reports `empty() == true`, and
both `get` and `get_mut` on it return `None`. -/
theorem new_reports_empty (SIZE : Nat) :
    (DynBox.new SIZE).empty = true ∧ (DynBox.new SIZE).get = none ∧
      (DynBox.new SIZE).get_mut = none :=
  ⟨rfl, rfl, rfl⟩

/-- Claim C4: storing a second, fitting value into an occupied container
drops the first occupant exactly once — the call's drop-event list is exactly
one event, the old occupant — and the new value becomes the occupant. -/
theorem set_on_occupied_drops_old_once {SIZE : Nat} (T : TraitImpl)
    (bytes : List Nat) (b : DynBox SIZE) (hocc : b.vtable ≠ 0) (hsz : T.size ≤ SIZE) :
    ∃ b2, DynBox.set T bytes b = SetResult.ok b2 [b.vtable] ∧
      List.count b.vtable [b.vtable] = 1 ∧ b2.vtable = T.vtable := by
  refine ⟨{ store := writeStore T.size b.store bytes, vtable := T.vtable }, ?_, ?_, rfl⟩
  · rw [set_eq, if_pos hsz, if_neg hocc]
  · exact List.count_singleton_self b.vtable

/-- Witness for C4: storing the zero-sized `typeA` into the occupied `bOcc`. -/
theorem set_on_occupied_drops_old_once_witness :
    bOcc.vtable ≠ 0 ∧ typeA.size ≤ 4 ∧
      (∃ b2, DynBox.set typeA [] bOcc = SetResult.ok b2 [bOcc.vtable] ∧
        List.count bOcc.vtable [bOcc.vtable] = 1 ∧ b2.vtable = typeA.vtable) :=
  ⟨by decide, by decide,
    set_on_occupied_drops_old_once typeA [] bOcc (by decide) (by decide)⟩

/-- Claim C5: clearing an occupied container drops the occupant exactly once,
and afterwards the container reports empty and both accessors return `None`. -/
theorem clear_occupied_drops_once {SIZE : Nat} (b : DynBox SIZE)
    (hocc : b.vtable ≠ 0) :
    (b.clear).2 = [b.vtable] ∧ List.count b.vtable (b.clear).2 = 1 ∧
      ((b.clear).1).empty = true ∧ ((b.clear).1).get = none ∧
      ((b.clear).1).get_mut = none := by
  simp [DynBox.clear, hocc, DynBox.empty, DynBox.get, DynBox.get_mut,
    List.count_singleton_self]

/-- Witness for C5 at the occupied container `bOcc`. -/
theorem clear_occupied_drops_once_witness :
    bOcc.vtable ≠ 0 ∧
      ((bOcc.clear).2 = [bOcc.vtable] ∧ List.count bOcc.vtable (bOcc.clear).2 = 1 ∧
        ((bOcc.clear).1).empty = true ∧ ((bOcc.clear).1).get = none ∧
        ((bOcc.clear).1).get_mut = none) :=
  ⟨by decide, clear_occupied_drops_once bOcc (by decide)⟩

/-- Claim C6: clearing an empty container is a no-op — no drop event, state
unchanged — and clearing again still does nothing (idempotence). -/
theorem clear_on_empty_noop {SIZE : Nat} (b : DynBox SIZE) (h : b.empty = true) :
    b.clear = (b, []) ∧ ((b.clear).1).clear = ((b.clear).1, []) := by
  have hv : b.vtable = 0 := by simpa [DynBox.empty] using h
  refine ⟨?_, ?_⟩ <;> simp [DynBox.clear, hv]

/-- Witness for C6 at the fresh container of capacity 4. -/
theorem clear_on_empty_noop_witness :
    (DynBox.new 4).empty = true ∧
      ((DynBox.new 4).clear = (DynBox.new 4, []) ∧
        (((DynBox.new 4).clear).1).clear = (((DynBox.new 4).clear).1, [])) :=
  ⟨by decide, clear_on_empty_noop (DynBox.new 4) (by decide)⟩

/-- Claim C7: destroying the container runs exactly the logic of `clear`, so
an occupant present at destruction time is dropped exactly once. -/
theorem drop_runs_clear_once {SIZE : Nat} (b : DynBox SIZE) (hocc : b.vtable ≠ 0) :
    b.dropContainer = b.clear ∧ (b.dropContainer).2 = [b.vtable] ∧
      List.count b.vtable (b.dropContainer).2 = 1 := by
  refine ⟨rfl, ?_, ?_⟩ <;>
    simp [DynBox.dropContainer, DynBox.clear, hocc, List.count_singleton_self]

/-- Witness for C7 at the occupied container `bOcc`. -/
theorem drop_runs_clear_once_witness :
    bOcc.vtable ≠ 0 ∧
      (bOcc.dropContainer = bOcc.clear ∧ (bOcc.dropContainer).2 = [bOcc.vtable] ∧
        List.count bOcc.vtable (bOcc.dropContainer).2 = 1) :=
  ⟨by decide, drop_runs_clear_once bOcc (by decide)⟩

/-- Claim C8: a zero-sized value is stored successfully for every capacity
`SIZE` (its size 0 never trips the assert), the container reports non-empty,
and trait-method calls through both accessors dispatch to that type's own
implementation. -/
theorem set_zero_sized_succeeds {SIZE : Nat} (env : Nat → TraitImpl) (T : TraitImpl)
    (bytes : List Nat) (b : DynBox SIZE) (henv : env T.vtable = T)
    (hzero : T.size = 0) (hlen : bytes.length = T.size) (hvt : T.vtable ≠ 0) :
    ∃ b2 ds, DynBox.set T bytes b = SetResult.ok b2 ds ∧ b2.empty = false ∧
      (∃ r, b2.get = some r ∧ callFoo env r = T.foo bytes) ∧
      (∃ r, b2.get_mut = some r ∧ callFoo env r = T.foo bytes) :=
  set_ok_dispatch env T bytes b henv hlen (by omega) hvt

/-- Witness for C8: the zero-sized `typeA` stored even at capacity 0. -/
theorem set_zero_sized_succeeds_witness :
    testEnv typeA.vtable = typeA ∧ typeA.size = 0 ∧
      ([] : List Nat).length = typeA.size ∧ typeA.vtable ≠ 0 ∧
      (∃ b2 ds, DynBox.set typeA [] (DynBox.new 0) = SetResult.ok b2 ds ∧
        b2.empty = false ∧
        (∃ r, b2.get = some r ∧ callFoo testEnv r = typeA.foo []) ∧
        (∃ r, b2.get_mut = some r ∧ callFoo testEnv r = typeA.foo [])) :=
  ⟨rfl, rfl, rfl, by decide,
    set_zero_sized_succeeds testEnv typeA [] (DynBox.new 0) rfl rfl rfl (by decide)⟩

/-- Claim C9: whenever `set` panics on the size assert, the container at the
panic point is a valid empty state: vtable 0, `empty() == true`, and both
accessors return `None` (any prior occupant was already cleared before the
size check). -/
theorem panic_state_is_valid_empty {SIZE : Nat} (T : TraitImpl) (bytes : List Nat)
    (b b2 : DynBox SIZE) (ds : List Nat)
    (h : DynBox.set T bytes b = SetResult.panicked b2 ds) :
    b2.vtable = 0 ∧ b2.empty = true ∧ b2.get = none ∧ b2.get_mut = none := by
  rw [set_eq] at h
  by_cases hsz : T.size ≤ SIZE
  · rw [if_pos hsz] at h
    exact SetResult.noConfusion h
  · rw [if_neg hsz] at h
    injection h with h1 h2
    subst h1
    exact ⟨rfl, rfl, rfl, rfl⟩

/-- Witness for C9 at the panic of storing `typeB` into `bOcc`. -/
theorem panic_state_is_valid_empty_witness :
    DynBox.set typeB (List.replicate 16 0) bOcc =
        SetResult.panicked { store := [1, 2, 3, 4], vtable := 0 } [7] ∧
      (({ store := [1, 2, 3, 4], vtable := 0 } : DynBox 4).vtable = 0 ∧
        ({ store := [1, 2, 3, 4], vtable := 0 } : DynBox 4).empty = true ∧
        ({ store := [1, 2, 3, 4], vtable := 0 } : DynBox 4).get = none ∧
        ({ store := [1, 2, 3, 4], vtable := 0 } : DynBox 4).get_mut = none) :=
  ⟨by decide,
    panic_state_is_valid_empty typeB (List.replicate 16 0) bOcc
      { store := [1, 2, 3, 4], vtable := 0 } [7] (by decide)⟩

/-- Claim C10: in every state reachable through `new`, `set` and `clear`, the
three observations agree — `empty()` is true iff `get` is `None` iff
`get_mut` is `None` — and all are determined by whether the vtable field is
the sentinel 0. -/
theorem reachable_observations_agree {SIZE : Nat} (b : DynBox SIZE)
    (_h : Reachable SIZE b) :
    (b.empty = true ↔ b.vtable = 0) ∧ (b.empty = true ↔ b.get = none) ∧
      (b.get = none ↔ b.get_mut = none) := by
  by_cases hv : b.vtable = 0 <;>
    simp [DynBox.empty, DynBox.get, DynBox.get_mut, hv]

/-- Witness for C10 at the reachable state `new 4`. -/
theorem reachable_observations_agree_witness :
    Reachable 4 (DynBox.new 4) ∧
      (((DynBox.new 4).empty = true ↔ (DynBox.new 4).vtable = 0) ∧
        ((DynBox.new 4).empty = true ↔ (DynBox.new 4).get = none) ∧
        ((DynBox.new 4).get = none ↔ (DynBox.new 4).get_mut = none)) :=
  ⟨Reachable.new, reachable_observations_agree (DynBox.new 4) Reachable.new⟩

end DynboxModel
